import Mathlib

/-!
Verification of the network-analytics telemetry pipeline
(`src/network_analytics/pipeline.py`) against its specification.

The pipeline operates on an in-memory table of telemetry records.  We embed
the table as a `List Record` and the numeric columns as exact rationals `ℚ`
(the Python code computes with IEEE doubles; all the properties at stake are
exact-arithmetic properties — thresholds, clamping, grouping, rounding — so
the rational model is faithful for them).  Pandas NaN results (sample
standard deviation of a single observation) are modelled with `Option ℚ`.

Square roots of rationals are irrational, so the z-score comparisons
`z > 2.5` performed by `detect_performance_bottlenecks` are embedded by an
exact boolean test (`zCond`) and proved equivalent to the real-valued
quotient `(x − mean) / std` with `Real.sqrt` (lemma `zCond_iff`).
-/

/-- One telemetry row.  Mirrors the CSV schema
`timestamp, device_id, region, traffic_mbps, latency_ms, packet_loss_pct,
cpu_utilization_pct`.  `timestamp` is an abstract time coordinate (only its
order and printed form matter to the pipeline). -/
structure Record where
  timestamp : ℚ
  device_id : String
  region : String
  traffic_mbps : ℚ
  latency_ms : ℚ
  packet_loss_pct : ℚ
  cpu_utilization_pct : ℚ
deriving DecidableEq, Repr

/-- Output record of `detect_performance_bottlenecks`
(the `Bottleneck` dataclass of `pipeline.py`). -/
structure Bottleneck where
  device_id : String
  region : String
  metric : String
  severity : ℚ
  description : String
deriving DecidableEq, Repr

/-- One output row of `compute_latency_stats`.  `latency_std_ms` carries the
pandas sample *variance* (`ddof = 1`); the column printed by pandas is its
square root, which is irrational in general.  The encoding is faithful for
the properties at stake: pandas `std` is `NaN` exactly when this field is
`none` (fewer than two observations), and it is `0` exactly when this field
is `some 0`. -/
structure LatencyStats where
  region : String
  device_id : String
  mean_latency_ms : ℚ
  median_latency_ms : ℚ
  max_latency_ms : ℚ
  latency_std_ms : Option ℚ
  samples : Nat
deriving DecidableEq, Repr

/-- One output row of `summarize_reliability_metrics`. -/
structure ReliabilityRow where
  region : String
  uptime_score : ℚ
  performance_score : ℚ
  avg_cpu_utilization_pct : ℚ
deriving DecidableEq, Repr

/-- Arithmetic mean of a list of rationals (pandas `mean`; the empty case,
where pandas reports NaN, is never consulted by the proofs: groups are
non-empty and the detector's mask is vacuous on an empty table). -/
def mean (xs : List ℚ) : ℚ := xs.sum / xs.length

/-- Population variance (`ddof = 0`), i.e. the square of the `std(ddof=0)`
used by `detect_performance_bottlenecks`. -/
def popVar (xs : List ℚ) : ℚ :=
  ((xs.map fun x => (x - mean xs) ^ 2).sum) / xs.length

/-- Sample variance (`ddof = 1`), the square of the pandas-default `std`
used by `compute_latency_stats`; `none` models the NaN that pandas reports
for fewer than two observations. -/
def sampleVar (xs : List ℚ) : Option ℚ :=
  if 2 ≤ xs.length then
    some (((xs.map fun x => (x - mean xs) ^ 2).sum) / (xs.length - 1))
  else none

/-- Insert into a list sorted by `le` (helper for `sortBy`). -/
def insSorted {α : Type} (le : α → α → Bool) (a : α) : List α → List α
  | [] => [a]
  | b :: bs => if le a b then a :: b :: bs else b :: insSorted le a bs

/-- Insertion sort; models the `sort=True` ordering of pandas `groupby`
group keys and the sort inside `median`. -/
def sortBy {α : Type} (le : α → α → Bool) : List α → List α
  | [] => []
  | a :: as => insSorted le a (sortBy le as)

/-- pandas `median`: middle element of the sorted values, or the average of
the two middle elements for an even count (0 on the empty list, never
consulted). -/
def median (xs : List ℚ) : ℚ :=
  let s := sortBy (fun a b => decide (a ≤ b)) xs
  let n := s.length
  if n = 0 then 0
  else if n % 2 = 1 then s.getD (n / 2) 0
  else (s.getD (n / 2 - 1) 0 + s.getD (n / 2) 0) / 2

/-- pandas `max` over a (non-empty) group of values. -/
def listMax : List ℚ → ℚ
  | [] => 0
  | x :: xs => xs.foldl max x

theorem length_insSorted {α : Type} (le : α → α → Bool) (a : α) :
    ∀ l : List α, (insSorted le a l).length = l.length + 1 := by
  intro l
  induction l with
  | nil => rfl
  | cons b bs ih =>
      simp only [insSorted]
      split <;> simp [ih]

theorem length_sortBy {α : Type} (le : α → α → Bool) :
    ∀ l : List α, (sortBy le l).length = l.length := by
  intro l
  induction l with
  | nil => rfl
  | cons a as ih => simp [sortBy, length_insSorted, ih]

theorem mem_insSorted {α : Type} (le : α → α → Bool) (a x : α) :
    ∀ l : List α, (x ∈ insSorted le a l ↔ x = a ∨ x ∈ l) := by
  intro l
  induction l with
  | nil => simp [insSorted]
  | cons b bs ih =>
      simp only [insSorted]
      split
      · simp
      · simp only [List.mem_cons, ih]
        tauto

theorem mem_sortBy {α : Type} (le : α → α → Bool) (x : α) :
    ∀ l : List α, (x ∈ sortBy le l ↔ x ∈ l) := by
  intro l
  induction l with
  | nil => simp [sortBy]
  | cons a as ih => simp [sortBy, mem_insSorted, ih]

/-- Grouping key of `compute_latency_stats`: the `(region, device_id)`
composite key of `df.groupby(["region", "device_id"])`. -/
def rowKey (r : Record) : String × String := (r.region, r.device_id)

/-- Lexicographic comparison on `(region, device_id)` keys: the order in
which pandas `groupby` (with its default `sort=True`) emits groups. -/
def keyLe (a b : String × String) : Bool :=
  decide (a.1 < b.1) || (decide (a.1 = b.1) && decide (a.2 ≤ b.2))

/-- The latency values of the `(region, device_id) = k` partition of `df`. -/
def groupLatencies (df : List Record) (k : String × String) : List ℚ :=
  (df.filter fun r => rowKey r = k).map Record.latency_ms

/-- `compute_latency_stats`: group by `(region, device_id)` and aggregate
`latency_ms` with `mean / median / max / std / count`
(pandas `agg(["mean", "median", "max", "std", "count"])`; `std` is the
pandas default `ddof = 1`). -/
def compute_latency_stats (df : List Record) : List LatencyStats :=
  (sortBy keyLe (df.map rowKey).dedup).map fun k =>
    let xs := groupLatencies df k
    { region := k.1
      device_id := k.2
      mean_latency_ms := mean xs
      median_latency_ms := median xs
      max_latency_ms := listMax xs
      latency_std_ms := sampleVar xs
      samples := xs.length }

/-- The `latency_ms` column of the whole table. -/
def latencies (df : List Record) : List ℚ := df.map Record.latency_ms

/-- The `packet_loss_pct` column of the whole table. -/
def losses (df : List Record) : List ℚ := df.map Record.packet_loss_pct

/-- Exact boolean embedding of the check `(x − m) / std > 2.5` performed on
each z-score, where `std = sqrt v` for population variance `v`, with the
code's fallback `std(ddof=0) or 1.0` replacing a zero std by `1.0`.
For `v ≠ 0` the test `(x − m) / sqrt v > 2.5` is equivalent to
`0 < x − m ∧ (5/2)² · v < (x − m)²` because both sides of the comparison
are positive; lemma `zCond_iff` proves this equivalence against the
real-valued quotient. -/
def zCond (x m v : ℚ) : Bool :=
  if v = 0 then decide ((5 : ℚ) / 2 < x - m)
  else decide (0 < x - m ∧ (5 / 2 : ℚ) ^ 2 * v < (x - m) ^ 2)

/-- The `anomaly_mask` of `detect_performance_bottlenecks`: latency, loss or
CPU above its fixed threshold, or a whole-table z-score of latency or loss
above 2.5. -/
def anomalyMask (df : List Record) (latT lossT cpuT : ℚ) (r : Record) : Bool :=
  decide (latT < r.latency_ms) ||
  decide (lossT < r.packet_loss_pct) ||
  decide (cpuT < r.cpu_utilization_pct) ||
  zCond r.latency_ms (mean (latencies df)) (popVar (latencies df)) ||
  zCond r.packet_loss_pct (mean (losses df)) (popVar (losses df))

/-- Python's `round` to the nearest integer, ties to even (banker's
rounding), on exact rationals. -/
def roundHalfEven (x : ℚ) : ℤ :=
  if x - ⌊x⌋ < 1 / 2 then ⌊x⌋
  else if 1 / 2 < x - ⌊x⌋ then ⌊x⌋ + 1
  else if ⌊x⌋ % 2 = 0 then ⌊x⌋ else ⌊x⌋ + 1

/-- Python's `round(x, 2)`. -/
def round2 (x : ℚ) : ℚ := (roundHalfEven (100 * x) : ℚ) / 100

/-- Latency overshoot ratio `(latency_ms − latency_threshold_ms) / latency_threshold_ms`. -/
def overshootLat (latT : ℚ) (r : Record) : ℚ := (r.latency_ms - latT) / latT

/-- Loss overshoot ratio
`(packet_loss_pct − packet_loss_threshold_pct) / max(packet_loss_threshold_pct, 1e-6)`. -/
def overshootLoss (lossT : ℚ) (r : Record) : ℚ :=
  (r.packet_loss_pct - lossT) / max lossT (1 / 1000000)

/-- CPU overshoot ratio `(cpu_utilization_pct − cpu_threshold_pct) / cpu_threshold_pct`. -/
def overshootCpu (cpuT : ℚ) (r : Record) : ℚ := (r.cpu_utilization_pct - cpuT) / cpuT

/-- `round(max(severity, 0.0), 2)` where `severity` is the max of the three
overshoot ratios. -/
def severityOf (latT lossT cpuT : ℚ) (r : Record) : ℚ :=
  round2 (max (max (max (overshootLat latT r) (overshootLoss lossT r))
    (overshootCpu cpuT r)) 0)

/-- The `Bottleneck` built for one flagged record. -/
def mkBottleneck (latT lossT cpuT : ℚ) (r : Record) : Bottleneck :=
  { device_id := r.device_id
    region := r.region
    metric := "latency/packet_loss/cpu"
    severity := severityOf latT lossT cpuT r
    description :=
      "High latency and loss event observed at " ++ toString r.timestamp ++
      " (latency " ++ toString r.latency_ms ++ " ms, loss " ++
      toString r.packet_loss_pct ++ "%)." }

/-- `detect_performance_bottlenecks`: one `Bottleneck` per record passing
`anomalyMask`, in table row order. -/
def detect_performance_bottlenecks (df : List Record)
    (latT : ℚ := 120) (lossT : ℚ := 2) (cpuT : ℚ := 90) : List Bottleneck :=
  (df.filter (anomalyMask df latT lossT cpuT)).map (mkBottleneck latT lossT cpuT)

/-- Per-record `uptime_score = 100 − packet_loss_pct.clip(upper=5)`. -/
def uptimeScore (r : Record) : ℚ := 100 - min r.packet_loss_pct 5

/-- Per-record `performance_score = 100 − latency_ms.clip(upper=200) / 2`. -/
def performanceScore (r : Record) : ℚ := 100 - min r.latency_ms 200 / 2

/-- The rows of the `region = g` partition of `df`. -/
def regionRows (df : List Record) (g : String) : List Record :=
  df.filter fun r => r.region = g

/-- `summarize_reliability_metrics`.  The Python code first takes
`df = df.copy()`, then adds the two derived score columns to the copy and
averages them per region; the caller's table is never touched.  The first
component of the result models the caller's dataframe after the call (the
original table, unchanged), the second the returned regional summary. -/
def summarize_reliability_metrics (df : List Record) :
    List Record × List ReliabilityRow :=
  let working := df
  ( df
  , (sortBy (fun a b => decide (a ≤ b)) (working.map Record.region).dedup).map
      fun g =>
        let rows := regionRows working g
        { region := g
          uptime_score := mean (rows.map uptimeScore)
          performance_score := mean (rows.map performanceScore)
          avg_cpu_utilization_pct := mean (rows.map Record.cpu_utilization_pct) } )

/-- The real-valued divisor the detector uses for a z-score column:
`std(ddof=0) or 1.0`, i.e. `1` when the population standard deviation is
zero and `sqrt v` otherwise (`v` the population variance). -/
noncomputable def stdFallback (v : ℚ) : ℝ :=
  if v = 0 then 1 else Real.sqrt (v : ℝ)

/-- The real-valued z-score `(x − m) / (std or 1.0)` of one value. -/
noncomputable def zscoreVal (x m v : ℚ) : ℝ := ((x : ℝ) - (m : ℝ)) / stdFallback v

/-- Whole-table z-score of a record's `latency_ms`, as the code computes it. -/
noncomputable def zLatency (df : List Record) (r : Record) : ℝ :=
  zscoreVal r.latency_ms (mean (latencies df)) (popVar (latencies df))

/-- Whole-table z-score of a record's `packet_loss_pct`, as the code computes it. -/
noncomputable def zLoss (df : List Record) (r : Record) : ℝ :=
  zscoreVal r.packet_loss_pct (mean (losses df)) (popVar (losses df))

theorem list_sum_nonneg {xs : List ℚ} (h : ∀ x ∈ xs, 0 ≤ x) : 0 ≤ xs.sum := by
  induction xs with
  | nil => simp
  | cons a as ih =>
      simp only [List.sum_cons]
      have ha : 0 ≤ a := h a (by simp)
      have has : 0 ≤ as.sum := ih fun x hx => h x (by simp [hx])
      linarith

theorem popVar_nonneg (xs : List ℚ) : 0 ≤ popVar xs := by
  unfold popVar
  apply div_nonneg
  · apply list_sum_nonneg
    intro x hx
    rcases List.mem_map.mp hx with ⟨y, -, rfl⟩
    positivity
  · exact_mod_cast Nat.zero_le _

/-- The boolean z-score test agrees with the real-valued comparison
`(x − m) / (std or 1.0) > 2.5`. -/
theorem stdFallback_zero : stdFallback 0 = 1 := by
  unfold stdFallback
  simp

theorem zCond_zero (x m : ℚ) : zCond x m 0 = decide ((5 : ℚ) / 2 < x - m) := by
  unfold zCond
  simp

theorem zCond_iff (x m v : ℚ) (hv : 0 ≤ v) :
    zCond x m v = true ↔ (5 : ℝ) / 2 < zscoreVal x m v := by
  by_cases h0 : v = 0
  · subst h0
    rw [zCond_zero]
    unfold zscoreVal
    rw [stdFallback_zero, div_one, decide_eq_true_eq]
    constructor
    · intro h
      have h2 := (Rat.cast_lt (K := ℝ)).mpr h
      push_cast at h2
      linarith
    · intro h
      apply (Rat.cast_lt (K := ℝ)).mp
      push_cast
      linarith
  · have hvpos : (0 : ℝ) < (v : ℝ) := by
      have : (0 : ℚ) < v := lt_of_le_of_ne hv (Ne.symm h0)
      exact_mod_cast this
    have hs : (0 : ℝ) < Real.sqrt (v : ℝ) := Real.sqrt_pos.mpr hvpos
    have hsq : Real.sqrt (v : ℝ) ^ 2 = (v : ℝ) := Real.sq_sqrt hvpos.le
    unfold zCond zscoreVal stdFallback
    simp only [if_neg h0, decide_eq_true_eq]
    rw [lt_div_iff₀ hs]
    constructor
    · rintro ⟨hd, hsqlt⟩
      have hd' : (0 : ℝ) < (x : ℝ) - (m : ℝ) := by
        have h2 := (Rat.cast_lt (K := ℝ)).mpr hd
        push_cast at h2
        linarith
      have hsqlt' : (5 / 2 : ℝ) ^ 2 * (v : ℝ) < ((x : ℝ) - (m : ℝ)) ^ 2 := by
        have h2 := (Rat.cast_lt (K := ℝ)).mpr hsqlt
        push_cast at h2
        linarith
      nlinarith [hs, hsq, hd', hsqlt', mul_pos hs hd']
    · intro h
      have hd' : (0 : ℝ) < (x : ℝ) - (m : ℝ) :=
        lt_trans (by positivity) h
      have hsqlt' : (5 / 2 : ℝ) ^ 2 * (v : ℝ) < ((x : ℝ) - (m : ℝ)) ^ 2 := by
        nlinarith [hs, hsq, hd', h]
      constructor
      · apply (Rat.cast_lt (K := ℝ)).mp
        push_cast
        linarith
      · apply (Rat.cast_lt (K := ℝ)).mp
        push_cast
        linarith

theorem roundHalfEven_nonneg {x : ℚ} (hx : 0 ≤ x) : 0 ≤ roundHalfEven x := by
  have hf : (0 : ℤ) ≤ ⌊x⌋ := Int.floor_nonneg.mpr hx
  unfold roundHalfEven
  split
  · exact hf
  · split
    · omega
    · split
      · exact hf
      · omega

theorem round2_nonneg {x : ℚ} (hx : 0 ≤ x) : 0 ≤ round2 x := by
  unfold round2
  have h := roundHalfEven_nonneg (x := 100 * x) (by positivity)
  apply div_nonneg
  · exact_mod_cast h
  · norm_num

theorem round2_zero : round2 0 = 0 := by
  norm_num [round2, roundHalfEven]

theorem mean_singleton (x : ℚ) : mean [x] = x := by
  unfold mean
  simp

theorem popVar_singleton (x : ℚ) : popVar [x] = 0 := by
  unfold popVar
  simp [mean_singleton]

theorem sum_const_list (c : ℚ) (xs : List ℚ) (h : ∀ x ∈ xs, x = c) :
    xs.sum = c * xs.length := by
  induction xs with
  | nil => simp
  | cons a as ih =>
      have ha : a = c := h a (by simp)
      have has : as.sum = c * as.length := ih fun x hx => h x (by simp [hx])
      simp only [List.sum_cons, List.length_cons, ha, has]
      push_cast
      ring

theorem mean_const (c : ℚ) (xs : List ℚ) (hne : xs ≠ []) (h : ∀ x ∈ xs, x = c) :
    mean xs = c := by
  unfold mean
  rw [sum_const_list c xs h]
  have hlen : (xs.length : ℚ) ≠ 0 := by
    have : xs.length ≠ 0 := fun h0 => hne (List.length_eq_zero.mp h0)
    exact_mod_cast this
  exact mul_div_cancel_right₀ c hlen

/-- Average of per-record uptime scores over a region's partition, when every
record of the region has the same score. -/
theorem region_uptime_const (df : List Record) (g : String) (c : ℚ)
    (hex : ∃ s ∈ df, s.region = g)
    (h : ∀ s ∈ df, s.region = g → uptimeScore s = c) :
    mean ((regionRows df g).map uptimeScore) = c := by
  apply mean_const
  · rcases hex with ⟨s, hs, hg⟩
    have hmem : s ∈ regionRows df g := by
      unfold regionRows
      rw [List.mem_filter]
      exact ⟨hs, by simp [hg]⟩
    intro hemp
    rw [List.map_eq_nil_iff] at hemp
    rw [hemp] at hmem
    exact (List.not_mem_nil s) hmem
  · intro x hx
    rcases List.mem_map.mp hx with ⟨s, hsmem, rfl⟩
    have hsf := List.mem_filter.mp hsmem
    exact h s hsf.1 (by simpa using hsf.2)

/-- A single telemetry row, the input of the single-sample scenarios. -/
def recS : Record :=
  { timestamp := 0, device_id := "edge-01", region := "us-east",
    traffic_mbps := 100, latency_ms := 50, packet_loss_pct := 1 / 2,
    cpu_utilization_pct := 70 }

/-- One-row table: its only `(region, device_id)` partition has one sample. -/
def dfS : List Record := [recS]

/-- The latency-statistics row produced for `dfS`. -/
def statS : LatencyStats :=
  { region := "us-east", device_id := "edge-01", mean_latency_ms := 50,
    median_latency_ms := 50, max_latency_ms := 50, latency_std_ms := none,
    samples := 1 }

/-- A record whose latency barely exceeds the 120 ms threshold
(latency 120.12 ms, overshoot ratio 0.001, which rounds to 0.00). -/
def recR : Record :=
  { timestamp := 0, device_id := "edge-09", region := "us-east",
    traffic_mbps := 0, latency_ms := 12012 / 100, packet_loss_pct := 0,
    cpu_utilization_pct := 0 }

/-- One-row table containing only `recR`. -/
def dfR : List Record := [recR]

/-- A quiet background record (all metrics 0) for the z-score-only scenario. -/
def zrec (t : ℚ) : Record :=
  { timestamp := t, device_id := "edge-11", region := "us-east",
    traffic_mbps := 0, latency_ms := 0, packet_loss_pct := 0,
    cpu_utilization_pct := 0 }

/-- The one outlier among the quiet records: latency 1 ms, far below every
fixed threshold but 3 population standard deviations above the table mean. -/
def rZ : Record :=
  { timestamp := 9, device_id := "edge-10", region := "us-east",
    traffic_mbps := 0, latency_ms := 1, packet_loss_pct := 0,
    cpu_utilization_pct := 0 }

/-- Ten-row table: nine quiet records and one z-score outlier.  Latencies
have mean 1/10 and population variance 9/100, so `rZ`'s z-score is 3. -/
def dfZ : List Record :=
  [zrec 0, zrec 1, zrec 2, zrec 3, zrec 4, zrec 5, zrec 6, zrec 7, zrec 8, rZ]

/-- Two identical rows: both whole-table population variances are 0. -/
def recC : Record :=
  { timestamp := 0, device_id := "edge-02", region := "us-west",
    traffic_mbps := 10, latency_ms := 80, packet_loss_pct := 1,
    cpu_utilization_pct := 50 }

/-- Table of two identical records (`recC` twice). -/
def dfC : List Record := [recC, recC]

/-- Like `recC` but with packet loss 3: paired with `recC` it gives a table
whose latency column is constant while its loss column varies. -/
def recD : Record :=
  { timestamp := 1, device_id := "edge-03", region := "us-west",
    traffic_mbps := 10, latency_ms := 80, packet_loss_pct := 3,
    cpu_utilization_pct := 50 }

/-- Two-row table with identical latencies (population variance 0) but
different packet losses (population variance 1): only the latency z-score
divisor degenerates to the fallback. -/
def dfD : List Record := [recC, recD]

/-- The 6-row sample table of the repository's test suite
(`tests/test_pipeline.py::_sample_df`). -/
def dfT : List Record :=
  [ { timestamp := 0, device_id := "edge-01", region := "us-east",
      traffic_mbps := 100, latency_ms := 50, packet_loss_pct := 1 / 2,
      cpu_utilization_pct := 70 }
  , { timestamp := 1, device_id := "edge-01", region := "us-east",
      traffic_mbps := 120, latency_ms := 55, packet_loss_pct := 2 / 5,
      cpu_utilization_pct := 72 }
  , { timestamp := 2, device_id := "edge-02", region := "us-east",
      traffic_mbps := 80, latency_ms := 60, packet_loss_pct := 3 / 5,
      cpu_utilization_pct := 65 }
  , { timestamp := 3, device_id := "edge-02", region := "us-west",
      traffic_mbps := 90, latency_ms := 200, packet_loss_pct := 5,
      cpu_utilization_pct := 95 }
  , { timestamp := 4, device_id := "edge-03", region := "us-west",
      traffic_mbps := 110, latency_ms := 45, packet_loss_pct := 3 / 10,
      cpu_utilization_pct := 60 }
  , { timestamp := 5, device_id := "edge-03", region := "us-west",
      traffic_mbps := 95, latency_ms := 50, packet_loss_pct := 1 / 5,
      cpu_utilization_pct := 58 } ]

/-- The 4th row of `dfT`, the only one the detector flags. -/
def rT4 : Record :=
  { timestamp := 3, device_id := "edge-02", region := "us-west",
    traffic_mbps := 90, latency_ms := 200, packet_loss_pct := 5,
    cpu_utilization_pct := 95 }

/-- Two records of one region, both with zero packet loss. -/
def recU1 : Record :=
  { timestamp := 0, device_id := "d1", region := "r1", traffic_mbps := 0,
    latency_ms := 100, packet_loss_pct := 0, cpu_utilization_pct := 40 }

/-- Second zero-loss record of region `r1`. -/
def recU2 : Record :=
  { timestamp := 1, device_id := "d2", region := "r1", traffic_mbps := 0,
    latency_ms := 120, packet_loss_pct := 0, cpu_utilization_pct := 60 }

/-- Region whose records all have zero packet loss. -/
def dfU : List Record := [recU1, recU2]

/-- The reliability summary row for `dfU`. -/
def rowU : ReliabilityRow :=
  { region := "r1", uptime_score := 100, performance_score := 45,
    avg_cpu_utilization_pct := 50 }

/-- A record with packet loss 7 (above the scoring cap of 5). -/
def recU5 : Record :=
  { timestamp := 0, device_id := "d3", region := "r2", traffic_mbps := 0,
    latency_ms := 50, packet_loss_pct := 7, cpu_utilization_pct := 80 }

/-- Region whose only record has packet loss above the cap. -/
def dfV : List Record := [recU5]

/-- The reliability summary row for `dfV`. -/
def rowV : ReliabilityRow :=
  { region := "r2", uptime_score := 95, performance_score := 75,
    avg_cpu_utilization_pct := 80 }

/-- C1, counterexample: the claim says a single-sample `(region, device_id)`
partition yields `latency_std_ms = 0`.  On the one-row table `dfS` the code
(pandas `agg(["std"])`, the sample estimator `ddof = 1`) yields NaN
(here `none`), not 0. -/
theorem claim_C1_counterexample :
    (compute_latency_stats dfS).map LatencyStats.latency_std_ms = [none] ∧
    (none : Option ℚ) ≠ some 0 := by
  with_unfolding_all decide

/-- C1 (amended): every `(region, device_id)` partition that contains exactly
one row yields a `LatencyStats` row whose `latency_std_ms` is NaN (`none`) —
pandas' default sample standard deviation is undefined for one sample — not 0. -/
theorem claim_C1_amended (df : List Record) (s : LatencyStats)
    (hs : s ∈ compute_latency_stats df) (h1 : s.samples = 1) :
    s.latency_std_ms = none := by
  unfold compute_latency_stats at hs
  rcases List.mem_map.mp hs with ⟨k, -, rfl⟩
  have h1' : (groupLatencies df k).length = 1 := h1
  show sampleVar (groupLatencies df k) = none
  unfold sampleVar
  rw [h1']
  norm_num

/-- Witness for C1 (amended) at the concrete one-row table `dfS`. -/
theorem claim_C1_amended_witness :
    statS ∈ compute_latency_stats dfS ∧ statS.samples = 1 ∧
    statS.latency_std_ms = none := by
  refine ⟨by with_unfolding_all decide, by with_unfolding_all decide, ?_⟩
  exact claim_C1_amended dfS statS (by with_unfolding_all decide)
    (by with_unfolding_all decide)

/-- C2, counterexample: the claim says a flagged record's severity is 0 iff
all three overshoot ratios are ≤ 0.  `recR` (latency 120.12 ms) is flagged,
its latency overshoot ratio is `0.001 > 0`, yet its reported severity is 0
because `round(·, 2)` rounds 0.001 down to 0.00. -/
theorem claim_C2_counterexample :
    (detect_performance_bottlenecks dfR).map Bottleneck.severity = [0] ∧
    0 < overshootLat 120 recR := by
  with_unfolding_all decide

/-- C2 (amended): every flagged record's severity is ≥ 0, and if all three
fixed-threshold overshoot ratios are ≤ 0 the severity is 0.  (The converse
of the original claim fails: a positive overshoot ratio below 0.005 also
rounds to severity 0, see `claim_C2_counterexample`.) -/
theorem claim_C2_amended (df : List Record) :
    (∀ b ∈ detect_performance_bottlenecks df, 0 ≤ b.severity) ∧
    (∀ r ∈ df.filter (anomalyMask df 120 2 90),
      overshootLat 120 r ≤ 0 → overshootLoss 2 r ≤ 0 → overshootCpu 90 r ≤ 0 →
        (mkBottleneck 120 2 90 r).severity = 0) := by
  constructor
  · intro b hb
    unfold detect_performance_bottlenecks at hb
    rcases List.mem_map.mp hb with ⟨r, -, rfl⟩
    show 0 ≤ severityOf 120 2 90 r
    unfold severityOf
    exact round2_nonneg (le_max_right _ _)
  · intro r hr h1 h2 h3
    show severityOf 120 2 90 r = 0
    unfold severityOf
    have hmax :
        max (max (max (overshootLat 120 r) (overshootLoss 2 r))
          (overshootCpu 90 r)) 0 = 0 :=
      max_eq_right (max_le (max_le h1 h2) h3)
    rw [hmax, round2_zero]

/-- Witness for C2 (amended): in `dfZ` the record `rZ` is flagged only by
the latency z-score (z = 3), all three overshoot ratios are negative, and
its severity is exactly 0. -/
theorem claim_C2_amended_witness :
    0 ≤ (mkBottleneck 120 2 90 rZ).severity ∧
    (mkBottleneck 120 2 90 rZ).severity = 0 := by
  have h := claim_C2_amended dfZ
  refine ⟨h.1 (mkBottleneck 120 2 90 rZ) ?_, h.2 rZ ?_ ?_ ?_ ?_⟩
  · with_unfolding_all decide
  · with_unfolding_all decide
  · with_unfolding_all decide
  · with_unfolding_all decide
  · with_unfolding_all decide

/-- C3: a record of the table is flagged (a `Bottleneck` is produced for it:
it passes the detector's mask, and the detector output is exactly the
flagged records mapped to `Bottleneck`s) if and only if latency exceeds
120, or packet loss exceeds 2, or CPU exceeds 90, or one of the two
whole-table z-scores (real-valued, with the zero-std fallback divisor)
exceeds 2.5. -/
theorem claim_C3 (df : List Record) (r : Record) (hr : r ∈ df) :
    (anomalyMask df 120 2 90 r = true ↔
      (120 < r.latency_ms ∨ 2 < r.packet_loss_pct ∨
        90 < r.cpu_utilization_pct ∨
        (5 : ℝ) / 2 < zLatency df r ∨ (5 : ℝ) / 2 < zLoss df r)) ∧
    detect_performance_bottlenecks df =
      (df.filter (anomalyMask df 120 2 90)).map (mkBottleneck 120 2 90) := by
  refine ⟨?_, rfl⟩
  unfold anomalyMask zLatency zLoss
  rw [Bool.or_eq_true, Bool.or_eq_true, Bool.or_eq_true, Bool.or_eq_true]
  rw [zCond_iff _ _ _ (popVar_nonneg _), zCond_iff _ _ _ (popVar_nonneg _)]
  simp only [decide_eq_true_eq]
  tauto

/-- Witness for C3 at the one-row table `dfS`. -/
theorem claim_C3_witness :
    (anomalyMask dfS 120 2 90 recS = true ↔
      (120 < recS.latency_ms ∨ 2 < recS.packet_loss_pct ∨
        90 < recS.cpu_utilization_pct ∨
        (5 : ℝ) / 2 < zLatency dfS recS ∨ (5 : ℝ) / 2 < zLoss dfS recS)) ∧
    detect_performance_bottlenecks dfS =
      (dfS.filter (anomalyMask dfS 120 2 90)).map (mkBottleneck 120 2 90) :=
  claim_C3 dfS recS (by with_unfolding_all decide)

theorem stdFallback_ne_zero {v : ℚ} (hv : 0 ≤ v) : stdFallback v ≠ 0 := by
  unfold stdFallback
  split
  · exact one_ne_zero
  · next h0 =>
      have hvpos : (0 : ℝ) < (v : ℝ) := by
        have : (0 : ℚ) < v := lt_of_le_of_ne hv (Ne.symm h0)
        exact_mod_cast this
      exact ne_of_gt (Real.sqrt_pos.mpr hvpos)

/-- C4: per z-score column independently — whenever the whole-table
population standard deviation of `latency_ms` (respectively
`packet_loss_pct`) is 0, i.e. the population variance of that column is 0,
the divisor used in that column's z-score computation is the fallback 1
(`std(ddof=0) or 1.0`) and each of the column's z-scores is the plain
deviation from the mean divided by 1; unconditionally, neither divisor is
ever 0, so the z-score computation never divides by zero.  (The
non-emptiness hypothesis matches the claim: on a zero-row table pandas
reports the std as NaN, not 0, and no record's z-score is ever computed.) -/
theorem claim_C4 (df : List Record) (r : Record) (hne : df ≠ []) :
    (popVar (latencies df) = 0 →
      stdFallback (popVar (latencies df)) = 1 ∧
      zLatency df r = (r.latency_ms : ℝ) - (mean (latencies df) : ℝ)) ∧
    (popVar (losses df) = 0 →
      stdFallback (popVar (losses df)) = 1 ∧
      zLoss df r = (r.packet_loss_pct : ℝ) - (mean (losses df) : ℝ)) ∧
    stdFallback (popVar (latencies df)) ≠ 0 ∧
    stdFallback (popVar (losses df)) ≠ 0 := by
  refine ⟨?_, ?_, stdFallback_ne_zero (popVar_nonneg _),
    stdFallback_ne_zero (popVar_nonneg _)⟩
  · intro hlat
    rw [hlat, stdFallback_zero]
    refine ⟨rfl, ?_⟩
    unfold zLatency zscoreVal
    rw [hlat, stdFallback_zero, div_one]
  · intro hloss
    rw [hloss, stdFallback_zero]
    refine ⟨rfl, ?_⟩
    unfold zLoss zscoreVal
    rw [hloss, stdFallback_zero, div_one]

/-- Witness for C4 at `dfD`, a two-row table whose latency column is
constant (population variance 0, so its divisor is the fallback 1) while
its loss column varies (population variance 1, divisor non-zero but not the
fallback): the fallback applies to exactly the degenerate column. -/
theorem claim_C4_witness :
    stdFallback (popVar (latencies dfD)) = 1 ∧
    zLatency dfD recC = (recC.latency_ms : ℝ) - (mean (latencies dfD) : ℝ) ∧
    stdFallback (popVar (losses dfD)) ≠ 0 := by
  have h := claim_C4 dfD recC (by with_unfolding_all decide)
  have h1 := h.1 (by with_unfolding_all decide)
  exact ⟨h1.1, h1.2, h.2.2.2⟩

/-- C5: a zero-row input table yields an empty latency-statistics table, an
unchanged (empty) caller table with an empty reliability summary, and an
empty bottleneck list; all three functions are total, so no error is
raised. -/
theorem claim_C5 :
    compute_latency_stats [] = [] ∧
    summarize_reliability_metrics [] = ([], []) ∧
    detect_performance_bottlenecks [] = [] :=
  ⟨rfl, rfl, rfl⟩

theorem perm_insSorted {α : Type} (le : α → α → Bool) (a : α) :
    ∀ l : List α, (insSorted le a l).Perm (a :: l) := by
  intro l
  induction l with
  | nil => exact List.Perm.refl _
  | cons b bs ih =>
      simp only [insSorted]
      split
      · exact List.Perm.refl _
      · exact (ih.cons b).trans (List.Perm.swap a b bs)

theorem perm_sortBy {α : Type} (le : α → α → Bool) :
    ∀ l : List α, (sortBy le l).Perm l := by
  intro l
  induction l with
  | nil => exact List.Perm.refl _
  | cons a as ih => exact (perm_insSorted le a (sortBy le as)).trans (ih.cons a)

/-- The `(region, device_id)` keys of the latency-statistics rows are
exactly the sorted, deduplicated keys of the input. -/
theorem compute_latency_stats_keys (df : List Record) :
    (compute_latency_stats df).map (fun s => (s.region, s.device_id)) =
      sortBy keyLe (df.map rowKey).dedup := by
  unfold compute_latency_stats
  rw [List.map_map]
  exact List.map_id _

/-- C6: `compute_latency_stats` returns exactly one row per distinct
`(region, device_id)` pair present in the input: the output row count is
the number of distinct observed pairs, the output keys contain no
duplicates, every observed pair is the key of an output row, and every
output row's key is an observed pair. -/
theorem claim_C6 (df : List Record) :
    (compute_latency_stats df).length = ((df.map rowKey).dedup).length ∧
    ((compute_latency_stats df).map (fun s => (s.region, s.device_id))).Nodup ∧
    (∀ r ∈ df, rowKey r ∈
      (compute_latency_stats df).map (fun s => (s.region, s.device_id))) ∧
    (∀ s ∈ compute_latency_stats df,
      ∃ r ∈ df, rowKey r = (s.region, s.device_id)) := by
  refine ⟨?_, ?_, ?_, ?_⟩
  · unfold compute_latency_stats
    rw [List.length_map, length_sortBy]
  · rw [compute_latency_stats_keys]
    exact ((perm_sortBy keyLe _).nodup_iff).mpr (List.nodup_dedup _)
  · intro r hr
    rw [compute_latency_stats_keys, mem_sortBy, List.mem_dedup]
    exact List.mem_map.mpr ⟨r, hr, rfl⟩
  · intro s hs
    unfold compute_latency_stats at hs
    rcases List.mem_map.mp hs with ⟨k, hk, rfl⟩
    rw [mem_sortBy, List.mem_dedup] at hk
    rcases List.mem_map.mp hk with ⟨r, hr, hrk⟩
    exact ⟨r, hr, hrk⟩

/-- Witness for C6 at the test suite's 6-row sample table `dfT`: four
distinct `(region, device_id)` pairs, four output rows, and the flagged
row's pair appears among the output keys. -/
theorem claim_C6_witness :
    (compute_latency_stats dfT).length = 4 ∧
    rowKey rT4 ∈
      (compute_latency_stats dfT).map (fun s => (s.region, s.device_id)) := by
  have h := claim_C6 dfT
  refine ⟨?_, h.2.2.1 rT4 (by with_unfolding_all decide)⟩
  rw [h.1]
  with_unfolding_all decide

/-- C9: `summarize_reliability_metrics` leaves the caller's table unchanged
(the code copies the dataframe before adding the `uptime_score` /
`performance_score` columns): the table component of the result is the
input, with every field of every row equal to its value before the call,
and the returned table has the unextended `Record` schema (no score
columns). -/
theorem claim_C9 (df : List Record) :
    (summarize_reliability_metrics df).1 = df ∧
    (summarize_reliability_metrics df).1.map Record.packet_loss_pct =
      df.map Record.packet_loss_pct ∧
    (summarize_reliability_metrics df).1.map Record.latency_ms =
      df.map Record.latency_ms ∧
    (summarize_reliability_metrics df).1.map Record.cpu_utilization_pct =
      df.map Record.cpu_utilization_pct :=
  ⟨rfl, rfl, rfl, rfl⟩

/-- C10: on a single-row table both z-scores are exactly 0 (the population
standard deviation is 0, so the fallback divisor 1 is used and the deviation
from the mean is 0), hence neither z-condition can fire and the lone record
is flagged iff it exceeds one of the three fixed thresholds. -/
theorem claim_C10 (r : Record) :
    zLatency [r] r = 0 ∧ zLoss [r] r = 0 ∧
    detect_performance_bottlenecks [r] =
      (if 120 < r.latency_ms ∨ 2 < r.packet_loss_pct ∨
          90 < r.cpu_utilization_pct
        then [mkBottleneck 120 2 90 r] else []) := by
  have hlat : latencies [r] = [r.latency_ms] := rfl
  have hloss : losses [r] = [r.packet_loss_pct] := rfl
  have hz1 : zCond r.latency_ms (mean (latencies [r]))
      (popVar (latencies [r])) = false := by
    rw [hlat, popVar_singleton, mean_singleton, zCond_zero]
    norm_num
  have hz2 : zCond r.packet_loss_pct (mean (losses [r]))
      (popVar (losses [r])) = false := by
    rw [hloss, popVar_singleton, mean_singleton, zCond_zero]
    norm_num
  refine ⟨?_, ?_, ?_⟩
  · unfold zLatency zscoreVal
    rw [hlat, popVar_singleton, mean_singleton, stdFallback_zero]
    simp
  · unfold zLoss zscoreVal
    rw [hloss, popVar_singleton, mean_singleton, stdFallback_zero]
    simp
  · unfold detect_performance_bottlenecks
    have hmask : anomalyMask [r] 120 2 90 r =
        (decide (120 < r.latency_ms) || decide (2 < r.packet_loss_pct) ||
          decide (90 < r.cpu_utilization_pct)) := by
      unfold anomalyMask
      rw [hz1, hz2]
      simp
    simp only [List.filter_cons, List.filter_nil, hmask, Bool.or_eq_true,
      decide_eq_true_eq]
    by_cases h : 120 < r.latency_ms ∨ 2 < r.packet_loss_pct ∨
        90 < r.cpu_utilization_pct
    · rw [if_pos ?_, if_pos h]
      · rfl
      · tauto
    · rw [if_neg ?_, if_neg h]
      · rfl
      · tauto

/-- C7: the per-record derived `uptime_score = 100 − clip(packet_loss_pct, 5)`
is 100 when the loss is 0 and 95 for every loss ≥ 5 (the cap), and
consequently a summary row whose region's records all have loss 0 reports
`uptime_score = 100`, while one whose records all have loss ≥ 5 reports 95. -/
theorem claim_C7 (r : Record) (df : List Record) (row : ReliabilityRow)
    (hrow : row ∈ (summarize_reliability_metrics df).2) :
    (r.packet_loss_pct = 0 → uptimeScore r = 100) ∧
    (5 ≤ r.packet_loss_pct → uptimeScore r = 95) ∧
    ((∀ s ∈ df, s.region = row.region → s.packet_loss_pct = 0) →
      row.uptime_score = 100) ∧
    ((∀ s ∈ df, s.region = row.region → 5 ≤ s.packet_loss_pct) →
      row.uptime_score = 95) := by
  have hrec0 : ∀ s : Record, s.packet_loss_pct = 0 → uptimeScore s = 100 := by
    intro s h0
    unfold uptimeScore
    rw [h0, min_eq_left (by norm_num : (0 : ℚ) ≤ 5)]
    norm_num
  have hrec5 : ∀ s : Record, 5 ≤ s.packet_loss_pct → uptimeScore s = 95 := by
    intro s h5
    unfold uptimeScore
    rw [min_eq_right h5]
    norm_num
  unfold summarize_reliability_metrics at hrow
  rcases List.mem_map.mp hrow with ⟨g, hg, rfl⟩
  have hgdf : ∃ s ∈ df, s.region = g := by
    have hg' : g ∈ (df.map Record.region).dedup := (mem_sortBy _ _ _).mp hg
    rcases List.mem_map.mp (List.mem_dedup.mp hg') with ⟨s, hs, rfl⟩
    exact ⟨s, hs, rfl⟩
  refine ⟨hrec0 r, hrec5 r, ?_, ?_⟩
  · intro hall
    show mean ((regionRows df g).map uptimeScore) = 100
    exact region_uptime_const df g 100 hgdf
      fun s hs hgs => hrec0 s (hall s hs hgs)
  · intro hall
    show mean ((regionRows df g).map uptimeScore) = 95
    exact region_uptime_const df g 95 hgdf
      fun s hs hgs => hrec5 s (hall s hs hgs)

/-- Witness for C7: region `r1` (table `dfU`) has only zero-loss records and
summarizes to `uptime_score = 100`; region `r2` (table `dfV`) has only
records with loss ≥ 5 and summarizes to `uptime_score = 95`. -/
theorem claim_C7_witness :
    uptimeScore recU1 = 100 ∧ uptimeScore recU5 = 95 ∧
    rowU.uptime_score = 100 ∧ rowV.uptime_score = 95 := by
  have hU := claim_C7 recU1 dfU rowU (by with_unfolding_all decide)
  have hV := claim_C7 recU5 dfV rowV (by with_unfolding_all decide)
  exact ⟨hU.1 (by with_unfolding_all decide),
    hV.2.1 (by with_unfolding_all decide),
    hU.2.2.1 (by with_unfolding_all decide),
    hV.2.2.2 (by with_unfolding_all decide)⟩

/-- C8: the detector returns exactly one `Bottleneck` per flagged record —
the flagged records, in input row order, mapped to `Bottleneck`s, so the
output length is the number of records passing the mask — and every
produced `Bottleneck` carries the fixed metric label
`"latency/packet_loss/cpu"`. -/
theorem claim_C8 (df : List Record) :
    detect_performance_bottlenecks df =
      (df.filter (anomalyMask df 120 2 90)).map (mkBottleneck 120 2 90) ∧
    (detect_performance_bottlenecks df).length =
      df.countP (anomalyMask df 120 2 90) ∧
    ∀ b ∈ detect_performance_bottlenecks df,
      b.metric = "latency/packet_loss/cpu" := by
  refine ⟨rfl, ?_, ?_⟩
  · unfold detect_performance_bottlenecks
    rw [List.length_map]
    exact (List.countP_eq_length_filter _ _).symm
  · intro b hb
    unfold detect_performance_bottlenecks at hb
    rcases List.mem_map.mp hb with ⟨x, -, rfl⟩
    rfl

/-- Witness for C8 at the test suite's 6-row sample table `dfT`: the flagged
row `rT4` yields a bottleneck with the fixed metric label. -/
theorem claim_C8_witness :
    (mkBottleneck 120 2 90 rT4).metric = "latency/packet_loss/cpu" :=
  (claim_C8 dfT).2.2 (mkBottleneck 120 2 90 rT4) (by with_unfolding_all decide)
